import Mathlib

/-!
Shallow embedding of the circular-economy strategy model and its grid
builders (`utils/model.js`, two snapshots of the same module), over exact
rationals. The first snapshot (suffix `A`) is the one exporting
`buildJointChoiceGrid`; the second (suffix `B`) is the one exporting
`buildFig1Grid .. buildFig6Data`. Functions shared verbatim by the two
snapshots (`profit_SI`, `profit_SM`) are defined once.
-/

structure CEModel where
  d1 : ℚ
  d2 : ℚ
  gamma : ℚ
  c : ℚ
  k : ℚ

namespace CEModel

/-- `this.d1L = Math.min(gamma * d1, 0.999)` -/
def d1L (p : CEModel) : ℚ := min (p.gamma * p.d1) (999/1000)

/-- `this.d2L = Math.min(gamma * d2, 0.999)` -/
def d2L (p : CEModel) : ℚ := min (p.gamma * p.d2) (999/1000)

/-- `this.d_sum_S = d1 + d2` -/
def d_sum_S (p : CEModel) : ℚ := p.d1 + p.d2

/-- `this.d_sum_L = this.d1L + this.d2L` -/
def d_sum_L (p : CEModel) : ℚ := d1L p + d2L p

/-- `profit_SI`: zero when `2c > 1 + d_sum_S/2`, otherwise
`(2 - 2*(2c) + d_sum_S)^2 / (8*(2 + 3*d_sum_S))`. Identical in both
snapshots. -/
def profit_SI (p : CEModel) : ℚ :=
  if 1 + d_sum_S p / 2 < 2 * p.c then 0
  else (2 - 2 * (2 * p.c) + d_sum_S p) ^ 2 / (8 * (2 + 3 * d_sum_S p))

/-- A lattice coordinate `i/(steps-1)`, as both loops write it. -/
def lat (steps i : ℕ) : ℚ := (i : ℚ) / ((steps : ℚ) - 1)

/-- `rn = 1 - Ln - (dsum/2)*Lu` in the LI optimizer body. -/
def LI_rn (p : CEModel) (steps i j : ℕ) : ℚ :=
  1 - lat steps i - (d_sum_L p / 2) * lat steps j

/-- `ru = (dsum/2)*(1 - Ln - Lu)` in the LI optimizer body. -/
def LI_ru (p : CEModel) (steps i j : ℕ) : ℚ :=
  (d_sum_L p / 2) * (1 - lat steps i - lat steps j)

/-- `profit = (rn*Ln + ru*Lu) - cost*Ln` with `cost = 2*c`. -/
def LI_profit (p : CEModel) (steps i j : ℕ) : ℚ :=
  LI_rn p steps i j * lat steps i + LI_ru p steps i j * lat steps j
    - 2 * p.c * lat steps i

/-- `_optimize_LI_numerical` of the first snapshot: 31 points per axis,
`best` starts at 0, points with `Lu > Ln` skipped, points with a negative
price skipped, `best` updated on strict improvement. -/
def optimize_LI_numerical_A (p : CEModel) : ℚ :=
  (List.range 31).foldl (fun best i =>
    (List.range 31).foldl (fun best j =>
      if lat 31 i < lat 31 j then best
      else if LI_rn p 31 i j < 0 ∨ LI_ru p 31 i j < 0 then best
      else if best < LI_profit p 31 i j then LI_profit p 31 i j else best)
      best) 0

/-- `_optimize_LI_numerical` of the second snapshot: 25 points per axis,
`best` starts at `-1e9`, no negative-price skip, `Math.max(best, 0)`
returned. -/
def optimize_LI_numerical_B (p : CEModel) : ℚ :=
  max ((List.range 25).foldl (fun best i =>
    (List.range 25).foldl (fun best j =>
      if lat 25 i < lat 25 j then best
      else if best < LI_profit p 25 i j then LI_profit p 25 i j else best)
      best) (-(10 ^ 9 : ℚ))) 0

/-- `profit_LI`, first snapshot: numerical optimizer when `c < (2 - d_sum_L)/8`,
the `d_sum_L` closed form otherwise. -/
def profit_LI_A (p : CEModel) : ℚ :=
  if p.c < (2 - d_sum_L p) / 8 then optimize_LI_numerical_A p
  else (2 - 2 * (2 * p.c) + d_sum_L p) ^ 2 / (8 * (2 + 3 * d_sum_L p))

/-- `profit_LI`, second snapshot: same shape, second snapshot's optimizer. -/
def profit_LI_B (p : CEModel) : ℚ :=
  if p.c < (2 - d_sum_L p) / 8 then optimize_LI_numerical_B p
  else (2 - 2 * (2 * p.c) + d_sum_L p) ^ 2 / (8 * (2 + 3 * d_sum_L p))

/-- `profit_SM`: two modular component profits, each zeroed when its margin
is nonpositive, with the integral profit as a floor. Identical in both
snapshots. -/
def profit_SM (p : CEModel) : ℚ :=
  let margin2 := 1 - 2 * p.c - p.d2 - p.k
  let pi2 := if margin2 ≤ 0 then 0 else margin2 ^ 2 / (8 * (1 - p.d2))
  let margin1 := 1 - 2 * p.c - p.k + 2 * p.d2 + p.d1
  let pi1 := if margin1 ≤ 0 then 0
    else margin1 ^ 2 / (8 * (1 + 3 * p.d1 + 4 * p.d2))
  max (profit_SI p) (pi1 + pi2)

/-- The LM grid-search objective at lattice point `(i, j, kdx)`:
revenues by backward induction from `ruu` up to `rnn`, minus the
segment-specific unit costs `2c+k`, `c+k`, `k`. -/
def LM_profit (p : CEModel) (steps i j kdx : ℕ) : ℚ :=
  let Lnn := lat steps i
  let Lun := lat steps j
  let Luu := lat steps kdx
  let Q := Lnn + Lun + Luu
  let u_un := (1 + d1L p) / 2
  let u_uu := (d1L p + d2L p) / 2
  let ruu := u_uu * (1 - Q)
  let run := ruu + (u_un - u_uu) * (1 - Lnn - Lun)
  let rnn := run + (1 - u_un) * (1 - Lnn)
  rnn * Lnn + run * Lun + ruu * Luu
    - ((2 * p.c + p.k) * Lnn + (p.c + p.k) * Lun + p.k * Luu)

/-- The LM grid search of the first snapshot: 21 points per axis,
`best` starts at 0, skipping `Lun + Luu > Lnn` and `Q >= 1`. -/
def lmGrid_A (p : CEModel) : ℚ :=
  (List.range 21).foldl (fun best i =>
    (List.range 21).foldl (fun best j =>
      (List.range 21).foldl (fun best kdx =>
        if lat 21 i < lat 21 j + lat 21 kdx then best
        else if 1 ≤ lat 21 i + lat 21 j + lat 21 kdx then best
        else if best < LM_profit p 21 i j kdx then LM_profit p 21 i j kdx
        else best) best) best) 0

/-- `profit_LM`, first snapshot: `Math.max(best, pi_LI)`. -/
def profit_LM_A (p : CEModel) : ℚ := max (lmGrid_A p) (profit_LI_A p)

/-- The LM grid search of the second snapshot: 16 points per axis,
`best` starts at `-1e9`, same skips. -/
def lmGrid_B (p : CEModel) : ℚ :=
  (List.range 16).foldl (fun best i =>
    (List.range 16).foldl (fun best j =>
      (List.range 16).foldl (fun best kdx =>
        if lat 16 i < lat 16 j + lat 16 kdx then best
        else if 1 ≤ lat 16 i + lat 16 j + lat 16 kdx then best
        else if best < LM_profit p 16 i j kdx then LM_profit p 16 i j kdx
        else best) best) best) (-(10 ^ 9 : ℚ))

/-- `profit_LM`, second snapshot: `Math.max(best, pi_LI, 0)`. -/
def profit_LM_B (p : CEModel) : ℚ :=
  max (max (lmGrid_B p) (profit_LI_B p)) 0

end CEModel

/-- One step of a guarded running-maximum loop: ignore `x` unless `P x`,
otherwise replace `best` exactly when the candidate value strictly
improves it, as `if (profit > best) best = profit` does. -/
def stepMax {β : Type*} (P : β → Prop) [DecidablePred P] (f : β → ℚ)
    (best : ℚ) (x : β) : ℚ :=
  if P x then (if best < f x then f x else best) else best

/-- A guarded running maximum over a list of candidates. -/
def condMaxFold {β : Type*} (P : β → Prop) [DecidablePred P] (f : β → ℚ)
    (l : List β) (b : ℚ) : ℚ :=
  l.foldl (stepMax P f) b

/-- One step of a guarded running argmax carrying a payload with the value. -/
def stepArg {α β : Type*} (P : β → Prop) [DecidablePred P] (f : β → ℚ)
    (g : β → α) (s : ℚ × α) (x : β) : ℚ × α :=
  if P x then (if s.1 < f x then (f x, g x) else s) else s

/-- A guarded running argmax over a list of candidates. -/
def argmaxFold {α β : Type*} (P : β → Prop) [DecidablePred P] (f : β → ℚ)
    (g : β → α) (l : List β) (s : ℚ × α) : ℚ × α :=
  l.foldl (stepArg P f g) s

/-- All index pairs a doubly nested `for` loop visits, in visit order. -/
def gridPairs (n m : ℕ) : List (ℕ × ℕ) :=
  (List.range n).flatMap fun i => (List.range m).map fun j => (i, j)

/-- All index triples a triply nested `for` loop visits, in visit order. -/
def gridTriples (n : ℕ) : List (ℕ × ℕ × ℕ) :=
  (List.range n).flatMap fun i =>
    (List.range n).flatMap fun j =>
      (List.range n).map fun kdx => (i, j, kdx)

/-- The four strategies, in the fixed enumeration order `SI, LI, SM, LM`. -/
inductive Strat
  | SI
  | LI
  | SM
  | LM
deriving DecidableEq

/-- The strategy's position in the fixed enumeration. -/
def stratIdx : Strat → ℕ
  | Strat.SI => 0
  | Strat.LI => 1
  | Strat.SM => 2
  | Strat.LM => 3

/-- Lookup in the `profits` record `{SI: a, LI: b, SM: c, LM: d}`. -/
def stratProfit (a b c d : ℚ) : Strat → ℚ
  | Strat.SI => a
  | Strat.LI => b
  | Strat.SM => c
  | Strat.LM => d

/-- `Object.keys(profits).reduce((x,y) => profits[x] > profits[y] ? x : y)`:
the accumulator starts at `SI` and keeps itself only on a strict win. -/
def selectStrat (a b c d : ℚ) : Strat :=
  [Strat.LI, Strat.SM, Strat.LM].foldl
    (fun x y => if stratProfit a b c d y < stratProfit a b c d x then x else y)
    Strat.SI

/-- `Math.max(...profits)` over the four-element profit array. -/
def max4 (a b c d : ℚ) : ℚ := max (max (max a b) c) d

/-- `profits.indexOf(Math.max(...profits))` for `[a, b, c, d]`. -/
def jointCode (a b c d : ℚ) : ℕ := [a, b, c, d].indexOf (max4 a b c d)

/-- `linspace(a, b, n)[i] = a + (b-a)*(i/(n-1))`. -/
def linval (a b : ℚ) (n i : ℕ) : ℚ := a + (b - a) * ((i : ℚ) / ((n : ℚ) - 1))

/-- The axis array `linspace(a, b, n)`. -/
def linspace (a b : ℚ) (n : ℕ) : List ℚ := (List.range n).map (linval a b n)

/-- The shared `d1`/`d2` axis of Fig 1 and Fig 2: `linspace(0.05, 0.95, N)`. -/
def fig1Axis (N i : ℕ) : ℚ := linval (1/20) (19/20) N i

/-- The model Fig 1 builds at cell `(i, j)`: `d1 = xAxis[j]`, `d2 = yAxis[i]`. -/
def fig1Model (gamma c k : ℚ) (N i j : ℕ) : CEModel :=
  ⟨fig1Axis N j, fig1Axis N i, gamma, c, k⟩

/-- A `Z_sell` cell of `buildFig1Grid` (second snapshot): `null` when
`d2v >= d1v`, else 1 iff `profit_SM > profit_SI + 1e-8`. -/
def fig1SellCell (gamma c k : ℚ) (N i j : ℕ) : Option ℕ :=
  if fig1Axis N j ≤ fig1Axis N i then none
  else some (if CEModel.profit_SI (fig1Model gamma c k N i j) + 1/100000000 <
      CEModel.profit_SM (fig1Model gamma c k N i j) then 1 else 0)

/-- A `Z_leas` cell of `buildFig1Grid` (second snapshot). -/
def fig1LeaseCell (gamma c k : ℚ) (N i j : ℕ) : Option ℕ :=
  if fig1Axis N j ≤ fig1Axis N i then none
  else some (if CEModel.profit_LI_B (fig1Model gamma c k N i j) + 1/100000000 <
      CEModel.profit_LM_B (fig1Model gamma c k N i j) then 1 else 0)

/-- The model Fig 2 builds at cell `(i, j)` (its `k` is fixed to 0). -/
def fig2Model (gamma c : ℚ) (N i j : ℕ) : CEModel :=
  ⟨fig1Axis N j, fig1Axis N i, gamma, c, 0⟩

/-- A cell of `buildFig2Grid`: `null` when `d2v >= d1v`, else the 4-way
architecture-switching category from `arch_S` and `arch_L`. -/
def fig2Cell (gamma c : ℚ) (N i j : ℕ) : Option ℕ :=
  if fig1Axis N j ≤ fig1Axis N i then none
  else
    let m := fig2Model gamma c N i j
    let archS : ℕ := if CEModel.profit_SI m < CEModel.profit_SM m then 1 else 0
    let archL : ℕ :=
      if CEModel.profit_LI_B m < CEModel.profit_LM_B m then 1 else 0
    some (if archS = 0 ∧ archL = 0 then 0
      else if archS = 0 ∧ archL = 1 then 1
      else if archS = 1 ∧ archL = 0 then 2
      else 3)

/-- The model Fig 3 builds at cell `(i, j)`: `c = cAxis[j]` over
`linspace(0.01, 0.15, N)`, `gamma = gAxis[i]` over `linspace(0.5, 1.3, N)`,
`k = 0`; `d1, d2` fixed. -/
def fig3Model (d1 d2 : ℚ) (N i j : ℕ) : CEModel :=
  ⟨d1, d2, linval (1/2) (13/10) N i, linval (1/100) (15/100) N j, 0⟩

/-- `pref_I === 'L'` at a Fig 3 cell: `pi_LI > pi_SI`. -/
def fig3prefI (d1 d2 : ℚ) (N i j : ℕ) : Bool :=
  if CEModel.profit_SI (fig3Model d1 d2 N i j) <
      CEModel.profit_LI_B (fig3Model d1 d2 N i j) then true else false

/-- `pref_M === 'L'` at a Fig 3 cell: `pi_LM > pi_SM`. -/
def fig3prefM (d1 d2 : ℚ) (N i j : ℕ) : Bool :=
  if CEModel.profit_SM (fig3Model d1 d2 N i j) <
      CEModel.profit_LM_B (fig3Model d1 d2 N i j) then true else false

/-- A `Z_switch` cell of `buildFig3Grid`: 1 when the integral pair prefers
lease and the modular pair sell; else 2 or 0 when the two agree (lease/sell);
else 0. Always a number — the builder never masks on the fixed `(d1, d2)`. -/
def fig3SwitchCell (d1 d2 : ℚ) (N i j : ℕ) : Option ℕ :=
  if fig3prefI d1 d2 N i j = true ∧ fig3prefM d1 d2 N i j = false then some 1
  else if fig3prefI d1 d2 N i j = fig3prefM d1 d2 N i j then
    (if fig3prefM d1 d2 N i j = true then some 2 else some 0)
  else some 0

/-- The model `buildJointChoiceGrid` (first snapshot) builds at cell
`(i, j)`: `c = c_range[j]` over `linspace(0.01, 0.35, N)`,
`gamma = g_range[i]` over `linspace(0.5, 1.5, N)`; `d1, d2, k` fixed. -/
def jointChoiceModel (d1 d2 k : ℚ) (N i j : ℕ) : CEModel :=
  ⟨d1, d2, linval (1/2) (3/2) N i, linval (1/100) (35/100) N j, k⟩

/-- A cell of `buildJointChoiceGrid`: always the 4-way strategy code of the
first snapshot's profits — no feasibility mask on the fixed `(d1, d2)`. -/
def jointChoiceCell (d1 d2 k : ℚ) (N i j : ℕ) : Option ℕ :=
  some (jointCode
    (CEModel.profit_SI (jointChoiceModel d1 d2 k N i j))
    (CEModel.profit_LI_A (jointChoiceModel d1 d2 k N i j))
    (CEModel.profit_SM (jointChoiceModel d1 d2 k N i j))
    (CEModel.profit_LM_A (jointChoiceModel d1 d2 k N i j)))

/-- The model `buildFig4Grid` builds at cell `(i, j)` for a case `(d1, d2)`:
same axes as the joint-choice grid, `k = 0`. -/
def fig4Model (d1 d2 : ℚ) (N i j : ℕ) : CEModel :=
  ⟨d1, d2, linval (1/2) (3/2) N i, linval (1/100) (35/100) N j, 0⟩

/-- A cell of `buildFig4Grid`: always the 4-way strategy code of the second
snapshot's profits. -/
def fig4Cell (d1 d2 : ℚ) (N i j : ℕ) : Option ℕ :=
  some (jointCode
    (CEModel.profit_SI (fig4Model d1 d2 N i j))
    (CEModel.profit_LI_B (fig4Model d1 d2 N i j))
    (CEModel.profit_SM (fig4Model d1 d2 N i j))
    (CEModel.profit_LM_B (fig4Model d1 d2 N i j)))

/-- The model `buildFig5Grid` builds at cell `(i, j)` for a given `k`:
`d1 = 0.28`, `d2 = 0.1`, same axes. -/
def fig5Model (k : ℚ) (N i j : ℕ) : CEModel :=
  ⟨28/100, 1/10, linval (1/2) (3/2) N i, linval (1/100) (35/100) N j, k⟩

/-- A cell of `buildFig5Grid`: always the 4-way strategy code of the second
snapshot's profits. -/
def fig5Cell (k : ℚ) (N i j : ℕ) : Option ℕ :=
  some (jointCode
    (CEModel.profit_SI (fig5Model k N i j))
    (CEModel.profit_LI_B (fig5Model k N i j))
    (CEModel.profit_SM (fig5Model k N i j))
    (CEModel.profit_LM_B (fig5Model k N i j)))

/-- `search_grid = linspace(0.1, 0.9, 15)` of `buildFig6Data`. -/
def fig6_grid : List ℚ := linspace (1/10) (9/10) 15

/-- `c_total = c0 + 0.08*d1^2 + 0.16*d2^2`. -/
def fig6_c_total (c0 a b : ℚ) : ℚ := c0 + 8/100 * a ^ 2 + 16/100 * b ^ 2

/-- The model `buildFig6Data` evaluates at candidate pair `(d1v, d2v) = (a, b)`. -/
def fig6Model (gamma c0 a b : ℚ) : CEModel :=
  ⟨a, b, gamma, fig6_c_total c0 a b, 0⟩

/-- The strategy label the `reduce` picks at a candidate pair. -/
def fig6Strat (gamma c0 a b : ℚ) : Strat :=
  selectStrat
    (CEModel.profit_SI (fig6Model gamma c0 a b))
    (CEModel.profit_LI_B (fig6Model gamma c0 a b))
    (CEModel.profit_SM (fig6Model gamma c0 a b))
    (CEModel.profit_LM_B (fig6Model gamma c0 a b))

/-- `profits[strat]` at a candidate pair: the picked strategy's profit. -/
def fig6Value (gamma c0 a b : ℚ) : ℚ :=
  stratProfit
    (CEModel.profit_SI (fig6Model gamma c0 a b))
    (CEModel.profit_LI_B (fig6Model gamma c0 a b))
    (CEModel.profit_SM (fig6Model gamma c0 a b))
    (CEModel.profit_LM_B (fig6Model gamma c0 a b))
    (fig6Strat gamma c0 a b)

/-- The inner search of `buildFig6Data` for one `(gamma, c0)`: over the
coarse lattice, skipping `d2v >= d1v`, keep `(best_pi, best_pair,
best_strat)`, updating exactly when `profits[strat] > best_pi`; the state
starts at `(-1e9, (0.1, 0.1), SI)`. -/
def fig6Search (gamma c0 : ℚ) : ℚ × (ℚ × ℚ) × Strat :=
  fig6_grid.foldl (fun s a =>
    fig6_grid.foldl (fun s b =>
      if a ≤ b then s
      else if s.1 < fig6Value gamma c0 a b then
        (fig6Value gamma c0 a b, (a, b), fig6Strat gamma c0 a b)
      else s) s)
    (-(10 ^ 9 : ℚ), (1/10, 1/10), Strat.SI)

/-- The `Z_sell` matrix of `buildFig1Grid`. -/
def buildFig1Grid_Zsell (gamma c k : ℚ) (N : ℕ) : List (List (Option ℕ)) :=
  (List.range N).map fun i => (List.range N).map fun j =>
    fig1SellCell gamma c k N i j

/-- The `Z_leas` matrix of `buildFig1Grid`. -/
def buildFig1Grid_Zleas (gamma c k : ℚ) (N : ℕ) : List (List (Option ℕ)) :=
  (List.range N).map fun i => (List.range N).map fun j =>
    fig1LeaseCell gamma c k N i j

/-- The per-gamma matrix of `buildFig2Grid`. -/
def buildFig2Grid_Z (gamma c : ℚ) (N : ℕ) : List (List (Option ℕ)) :=
  (List.range N).map fun i => (List.range N).map fun j => fig2Cell gamma c N i j

/-- The `Z_switch` matrix of `buildFig3Grid`. -/
def buildFig3Grid_Zswitch (d1 d2 : ℚ) (N : ℕ) : List (List (Option ℕ)) :=
  (List.range N).map fun i => (List.range N).map fun j =>
    fig3SwitchCell d1 d2 N i j

/-- The matrix of `buildJointChoiceGrid`. -/
def buildJointChoiceGrid_Z (d1 d2 k : ℚ) (N : ℕ) : List (List (Option ℕ)) :=
  (List.range N).map fun i => (List.range N).map fun j =>
    jointChoiceCell d1 d2 k N i j

/-- The per-case matrix of `buildFig4Grid`. -/
def buildFig4Grid_Z (d1 d2 : ℚ) (N : ℕ) : List (List (Option ℕ)) :=
  (List.range N).map fun i => (List.range N).map fun j => fig4Cell d1 d2 N i j

/-- The per-gamma `(c0, opt_d1, opt_d2, strategy)` rows of `buildFig6Data`. -/
def buildFig6Data_rows (c0min c0max : ℚ) (steps : ℕ) :
    List (ℚ × List (ℚ × ℚ × (ℚ × ℚ) × Strat)) :=
  [72/100, 102/100].map fun gamma =>
    (gamma, (linspace c0min c0max steps).map fun c0 => (c0, fig6Search gamma c0))

/-- Claim C1: `profit_SI` returns exactly 0 when `2c > 1 + (d1+d2)/2` and
otherwise `(2 - 4c + (d1+d2))^2 / (8*(2 + 3*(d1+d2)))`; at
`d1=0.5, d2=0.2, gamma=1.0, c=0.15, k=0` it equals `4.41/32.8 = 441/3280`
to within `1e-6`. -/
theorem C1_profit_SI_closed_form :
    (∀ p : CEModel,
      (1 + (p.d1 + p.d2) / 2 < 2 * p.c → CEModel.profit_SI p = 0) ∧
      (¬ 1 + (p.d1 + p.d2) / 2 < 2 * p.c →
        CEModel.profit_SI p =
          (2 - 4 * p.c + (p.d1 + p.d2)) ^ 2 / (8 * (2 + 3 * (p.d1 + p.d2))))) ∧
    |CEModel.profit_SI ⟨1/2, 1/5, 1, 3/20, 0⟩ - 441/3280| < 1/1000000 := by
  constructor
  · intro p
    constructor
    · intro h
      simp only [CEModel.profit_SI, CEModel.d_sum_S, if_pos h]
    · intro h
      simp only [CEModel.profit_SI, CEModel.d_sum_S, if_neg h]
      ring_nf
  · have h : CEModel.profit_SI ⟨1/2, 1/5, 1, 3/20, 0⟩ = 441/3280 := by
      norm_num [CEModel.profit_SI, CEModel.d_sum_S]
    rw [h]
    norm_num

/-! ### Generic facts about guarded running-maximum loops -/

theorem le_stepMax {β : Type*} (P : β → Prop) [DecidablePred P] (f : β → ℚ)
    (b : ℚ) (x : β) : b ≤ stepMax P f b x := by
  unfold stepMax
  split_ifs with h1 h2
  · exact le_of_lt h2
  · exact le_refl b
  · exact le_refl b

theorem stepMax_cases {β : Type*} (P : β → Prop) [DecidablePred P] (f : β → ℚ)
    (b : ℚ) (x : β) :
    stepMax P f b x = b ∨ (P x ∧ stepMax P f b x = f x) := by
  unfold stepMax
  split_ifs with h1 h2
  · exact Or.inr ⟨h1, rfl⟩
  · exact Or.inl rfl
  · exact Or.inl rfl

theorem init_le_condMaxFold {β : Type*} (P : β → Prop) [DecidablePred P]
    (f : β → ℚ) (l : List β) (b : ℚ) : b ≤ condMaxFold P f l b := by
  induction l generalizing b with
  | nil => exact le_refl b
  | cons a l ih =>
    exact le_trans (le_stepMax P f b a) (ih (stepMax P f b a))

theorem le_condMaxFold {β : Type*} (P : β → Prop) [DecidablePred P]
    (f : β → ℚ) {l : List β} {x : β} (hx : x ∈ l) (hP : P x) (b : ℚ) :
    f x ≤ condMaxFold P f l b := by
  induction l generalizing b with
  | nil => cases hx
  | cons a l ih =>
    rcases List.mem_cons.mp hx with h | h
    · subst h
      refine le_trans ?_ (init_le_condMaxFold P f l (stepMax P f b x))
      unfold stepMax
      rw [if_pos hP]
      split_ifs with h2
      · exact le_refl _
      · exact le_of_not_lt h2
    · exact ih h (stepMax P f b a)

theorem condMaxFold_attained {β : Type*} (P : β → Prop) [DecidablePred P]
    (f : β → ℚ) (l : List β) (b : ℚ) :
    condMaxFold P f l b = b ∨ ∃ x ∈ l, P x ∧ condMaxFold P f l b = f x := by
  induction l generalizing b with
  | nil => exact Or.inl rfl
  | cons a l ih =>
    have hc : condMaxFold P f (a :: l) b = condMaxFold P f l (stepMax P f b a) :=
      rfl
    rcases ih (stepMax P f b a) with h | ⟨x, hx, hPx, hval⟩
    · rcases stepMax_cases P f b a with h0 | ⟨hPa, h0⟩
      · exact Or.inl (by rw [hc, h, h0])
      · exact Or.inr ⟨a, List.mem_cons_self a l, hPa, by rw [hc, h, h0]⟩
    · exact Or.inr ⟨x, List.mem_cons_of_mem a hx, hPx, by rw [hc, hval]⟩

theorem stepArg_fst_le {α β : Type*} (P : β → Prop) [DecidablePred P]
    (f : β → ℚ) (g : β → α) (s : ℚ × α) (x : β) :
    s.1 ≤ (stepArg P f g s x).1 := by
  unfold stepArg
  split_ifs with h1 h2
  · exact le_of_lt h2
  · exact le_refl _
  · exact le_refl _

theorem stepArg_cases {α β : Type*} (P : β → Prop) [DecidablePred P]
    (f : β → ℚ) (g : β → α) (s : ℚ × α) (x : β) :
    stepArg P f g s x = s ∨ (P x ∧ stepArg P f g s x = (f x, g x)) := by
  unfold stepArg
  split_ifs with h1 h2
  · exact Or.inr ⟨h1, rfl⟩
  · exact Or.inl rfl
  · exact Or.inl rfl

theorem init_le_argmaxFold_fst {α β : Type*} (P : β → Prop) [DecidablePred P]
    (f : β → ℚ) (g : β → α) (l : List β) (s : ℚ × α) :
    s.1 ≤ (argmaxFold P f g l s).1 := by
  induction l generalizing s with
  | nil => exact le_refl _
  | cons a l ih =>
    exact le_trans (stepArg_fst_le P f g s a) (ih (stepArg P f g s a))

theorem le_argmaxFold_fst {α β : Type*} (P : β → Prop) [DecidablePred P]
    (f : β → ℚ) (g : β → α) {l : List β} {x : β} (hx : x ∈ l) (hP : P x)
    (s : ℚ × α) : f x ≤ (argmaxFold P f g l s).1 := by
  induction l generalizing s with
  | nil => cases hx
  | cons a l ih =>
    rcases List.mem_cons.mp hx with h | h
    · subst h
      refine le_trans ?_ (init_le_argmaxFold_fst P f g l (stepArg P f g s x))
      unfold stepArg
      rw [if_pos hP]
      split_ifs with h2
      · exact le_refl _
      · exact le_of_not_lt h2
    · exact ih h (stepArg P f g s a)

theorem argmaxFold_attained {α β : Type*} (P : β → Prop) [DecidablePred P]
    (f : β → ℚ) (g : β → α) (l : List β) (s : ℚ × α) :
    argmaxFold P f g l s = s ∨
      ∃ x ∈ l, P x ∧ argmaxFold P f g l s = (f x, g x) := by
  induction l generalizing s with
  | nil => exact Or.inl rfl
  | cons a l ih =>
    have hc : argmaxFold P f g (a :: l) s =
        argmaxFold P f g l (stepArg P f g s a) := rfl
    rcases ih (stepArg P f g s a) with h | ⟨x, hx, hPx, hval⟩
    · rcases stepArg_cases P f g s a with h0 | ⟨hPa, h0⟩
      · exact Or.inl (by rw [hc, h, h0])
      · exact Or.inr ⟨a, List.mem_cons_self a l, hPa, by rw [hc, h, h0]⟩
    · exact Or.inr ⟨x, List.mem_cons_of_mem a hx, hPx, by rw [hc, hval]⟩

theorem foldl_init_le {β : Type*} (f : ℚ → β → ℚ) (h : ∀ b x, b ≤ f b x)
    (l : List β) (b : ℚ) : b ≤ l.foldl f b := by
  induction l generalizing b with
  | nil => exact le_refl b
  | cons a l ih => exact le_trans (h b a) (ih (f b a))

theorem foldl_flatMap_eq {α β γ : Type*} (g : α → List β) (f : γ → β → γ)
    (l : List α) (b : γ) :
    (l.flatMap g).foldl f b = l.foldl (fun b a => (g a).foldl f b) b := by
  induction l generalizing b with
  | nil => rfl
  | cons a l ih => rw [List.flatMap_cons, List.foldl_append, ih, List.foldl_cons]

theorem mem_gridPairs {n m : ℕ} {q : ℕ × ℕ} :
    q ∈ gridPairs n m ↔ q.1 < n ∧ q.2 < m := by
  unfold gridPairs
  rw [List.mem_flatMap]
  constructor
  · rintro ⟨i, hi, hq⟩
    rcases List.mem_map.mp hq with ⟨j, hj, rfl⟩
    exact ⟨List.mem_range.mp hi, List.mem_range.mp hj⟩
  · rintro ⟨h1, h2⟩
    exact ⟨q.1, List.mem_range.mpr h1,
      List.mem_map.mpr ⟨q.2, List.mem_range.mpr h2, rfl⟩⟩

/-! ### The LI optimizer as a guarded maximum over its candidate list -/

theorem optimize_LI_numerical_A_eq (p : CEModel) :
    CEModel.optimize_LI_numerical_A p =
      condMaxFold
        (fun q : ℕ × ℕ => ¬ CEModel.lat 31 q.1 < CEModel.lat 31 q.2 ∧
          ¬ (CEModel.LI_rn p 31 q.1 q.2 < 0 ∨ CEModel.LI_ru p 31 q.1 q.2 < 0))
        (fun q => CEModel.LI_profit p 31 q.1 q.2) (gridPairs 31 31) 0 := by
  unfold condMaxFold gridPairs CEModel.optimize_LI_numerical_A
  rw [foldl_flatMap_eq]
  refine (List.foldl_ext _ _ 0 fun b i _ => ?_).symm
  rw [List.foldl_map]
  refine List.foldl_ext _ _ b fun b' j _ => ?_
  unfold stepMax
  by_cases h1 : CEModel.lat 31 i < CEModel.lat 31 j
  · simp [h1]
  · by_cases h2 : CEModel.LI_rn p 31 i j < 0 ∨ CEModel.LI_ru p 31 i j < 0
    · simp [h1, h2]
    · simp [h1, h2]

theorem optimize_LI_numerical_B_eq (p : CEModel) :
    CEModel.optimize_LI_numerical_B p =
      max (condMaxFold
        (fun q : ℕ × ℕ => ¬ CEModel.lat 25 q.1 < CEModel.lat 25 q.2)
        (fun q => CEModel.LI_profit p 25 q.1 q.2) (gridPairs 25 25)
        (-(10 ^ 9 : ℚ))) 0 := by
  unfold condMaxFold gridPairs CEModel.optimize_LI_numerical_B
  rw [foldl_flatMap_eq]
  congr 1
  refine (List.foldl_ext _ _ _ fun b i _ => ?_).symm
  rw [List.foldl_map]
  refine List.foldl_ext _ _ b fun b' j _ => ?_
  unfold stepMax
  by_cases h1 : CEModel.lat 25 i < CEModel.lat 25 j
  · simp [h1]
  · simp [h1]

/-! ### The Fig 6 inner search as a guarded argmax over its candidate list -/

theorem fig6Search_eq (gamma c0 : ℚ) :
    fig6Search gamma c0 =
      argmaxFold (fun q : ℚ × ℚ => ¬ q.1 ≤ q.2)
        (fun q => fig6Value gamma c0 q.1 q.2)
        (fun q => ((q.1, q.2), fig6Strat gamma c0 q.1 q.2))
        (fig6_grid.flatMap fun a => fig6_grid.map fun b => (a, b))
        (-(10 ^ 9 : ℚ), (1/10, 1/10), Strat.SI) := by
  unfold argmaxFold fig6Search
  rw [foldl_flatMap_eq]
  refine (List.foldl_ext _ _ _ fun s a _ => ?_).symm
  rw [List.foldl_map]
  refine List.foldl_ext _ _ s fun s' b _ => ?_
  unfold stepArg
  by_cases h1 : a ≤ b
  · simp [h1]
  · simp [h1]

theorem mem_fig6_pairList {q : ℚ × ℚ} :
    q ∈ (fig6_grid.flatMap fun a => fig6_grid.map fun b => (a, b)) ↔
      q.1 ∈ fig6_grid ∧ q.2 ∈ fig6_grid := by
  rw [List.mem_flatMap]
  constructor
  · rintro ⟨a, ha, hq⟩
    rcases List.mem_map.mp hq with ⟨b, hb, rfl⟩
    exact ⟨ha, hb⟩
  · rintro ⟨h1, h2⟩
    exact ⟨q.1, h1, List.mem_map.mpr ⟨q.2, h2, rfl⟩⟩

theorem fig6_grid_bounds : ∀ x ∈ fig6_grid, 1/10 ≤ x ∧ x ≤ 9/10 := by
  intro x hx
  unfold fig6_grid linspace at hx
  rcases List.mem_map.mp hx with ⟨i, hi, rfl⟩
  rw [List.mem_range] at hi
  have h0 : (0:ℚ) ≤ (i:ℚ) := Nat.cast_nonneg i
  have h14 : (i:ℚ) ≤ 14 := by
    have := Nat.le_of_lt_succ hi
    exact_mod_cast this
  have h15 : ((15:ℕ):ℚ) - 1 = 14 := by norm_num
  have hdiv0 : (0:ℚ) ≤ (i:ℚ) / 14 := by positivity
  have hdiv1 : (i:ℚ) / 14 ≤ 1 := by
    rw [div_le_one (by norm_num)]
    exact h14
  unfold linval
  rw [h15]
  constructor
  · linarith
  · linarith

theorem low_mem_fig6_grid : (1/10 : ℚ) ∈ fig6_grid := by
  unfold fig6_grid linspace
  refine List.mem_map.mpr ⟨0, List.mem_range.mpr (by norm_num), ?_⟩
  norm_num [linval]

theorem high_mem_fig6_grid : (9/10 : ℚ) ∈ fig6_grid := by
  unfold fig6_grid linspace
  refine List.mem_map.mpr ⟨14, List.mem_range.mpr (by norm_num), ?_⟩
  norm_num [linval]

/-! ### The last-match reduce and the leftmost indexOf argmax -/

theorem stratProfit_le_selectStrat (a b c d : ℚ) (s : Strat) :
    stratProfit a b c d s ≤ stratProfit a b c d (selectStrat a b c d) := by
  unfold selectStrat
  simp only [List.foldl_cons, List.foldl_nil]
  split_ifs <;> simp only [stratProfit, not_lt] at * <;> cases s <;>
    simp only [stratProfit] <;> linarith

theorem selectStrat_last (a b c d : ℚ) (s : Strat)
    (h : stratProfit a b c d s = stratProfit a b c d (selectStrat a b c d)) :
    stratIdx s ≤ stratIdx (selectStrat a b c d) := by
  unfold selectStrat at *
  simp only [List.foldl_cons, List.foldl_nil] at *
  split_ifs at * <;> simp only [stratProfit, not_lt] at * <;> cases s <;>
    simp_all [stratProfit, stratIdx]

theorem indexOf_spec (l : List ℚ) (x : ℚ) (h : x ∈ l) :
    List.indexOf x l < l.length ∧ l.getD (List.indexOf x l) 0 = x ∧
      ∀ n, n < List.indexOf x l → l.getD n 0 ≠ x := by
  induction l with
  | nil => cases h
  | cons a l ih =>
    rw [List.indexOf_cons]
    by_cases hax : a = x
    · subst hax
      simp
    · have hx : x ∈ l := by
        rcases List.mem_cons.mp h with h' | h'
        · exact absurd h'.symm hax
        · exact h'
      obtain ⟨h1, h2, h3⟩ := ih hx
      have hbeq : (a == x) = false := beq_eq_false_iff_ne.mpr hax
      rw [hbeq]
      simp only [cond_false]
      refine ⟨by simpa using Nat.succ_lt_succ h1, ?_, ?_⟩
      · simpa [List.getD_cons_succ] using h2
      · intro n hn
        cases n with
        | zero => simpa [List.getD_cons_zero] using hax
        | succ n =>
          rw [List.getD_cons_succ]
          exact h3 n (Nat.lt_of_succ_lt_succ hn)

theorem max4_eq_cases (a b c d : ℚ) :
    max4 a b c d = a ∨ max4 a b c d = b ∨ max4 a b c d = c ∨
      max4 a b c d = d := by
  unfold max4
  rcases max_choice (max (max a b) c) d with h | h
  · rcases max_choice (max a b) c with h' | h'
    · rcases max_choice a b with h'' | h''
      · exact Or.inl (by rw [h, h', h''])
      · exact Or.inr (Or.inl (by rw [h, h', h'']))
    · exact Or.inr (Or.inr (Or.inl (by rw [h, h'])))
  · exact Or.inr (Or.inr (Or.inr h))

theorem le_max4_all (a b c d : ℚ) :
    a ≤ max4 a b c d ∧ b ≤ max4 a b c d ∧ c ≤ max4 a b c d ∧
      d ≤ max4 a b c d := by
  unfold max4
  refine ⟨?_, ?_, ?_, le_max_right _ _⟩
  · exact le_trans (le_max_left a b)
      (le_trans (le_max_left _ c) (le_max_left _ d))
  · exact le_trans (le_max_right a b)
      (le_trans (le_max_left _ c) (le_max_left _ d))
  · exact le_trans (le_max_right _ c) (le_max_left _ d)

theorem max4_mem (a b c d : ℚ) : max4 a b c d ∈ [a, b, c, d] := by
  rcases max4_eq_cases a b c d with h | h | h | h <;> simp [h]

theorem getD_le_max4 (a b c d : ℚ) {n : ℕ} (hn : n < 4) :
    [a, b, c, d].getD n 0 ≤ max4 a b c d := by
  obtain ⟨h1, h2, h3, h4⟩ := le_max4_all a b c d
  rcases n with _ | _ | _ | _ | n
  · simpa using h1
  · simpa using h2
  · simpa using h3
  · simpa using h4
  · omega

theorem jointCode_spec (a b c d : ℚ) :
    jointCode a b c d < 4 ∧
      [a, b, c, d].getD (jointCode a b c d) 0 = max4 a b c d ∧
      ∀ n, n < jointCode a b c d → [a, b, c, d].getD n 0 < max4 a b c d := by
  unfold jointCode
  obtain ⟨h1, h2, h3⟩ :=
    indexOf_spec [a, b, c, d] (max4 a b c d) (max4_mem a b c d)
  refine ⟨by simpa using h1, h2, fun n hn => ?_⟩
  have hlt : n < 4 := lt_trans hn (by simpa using h1)
  exact lt_of_le_of_ne (getD_le_max4 a b c d hlt) (h3 n hn)

/-! ### Non-negativity helpers -/

theorem optimize_LI_numerical_A_nonneg (p : CEModel) :
    0 ≤ CEModel.optimize_LI_numerical_A p := by
  rw [optimize_LI_numerical_A_eq]
  exact init_le_condMaxFold _ _ _ 0

theorem lmGrid_A_nonneg (p : CEModel) : 0 ≤ CEModel.lmGrid_A p := by
  unfold CEModel.lmGrid_A
  refine foldl_init_le _ (fun b i => ?_) _ 0
  refine foldl_init_le _ (fun b' j => ?_) _ b
  refine foldl_init_le _ (fun b'' kdx => ?_) _ b'
  split_ifs with h1 h2 h3
  · exact le_refl _
  · exact le_refl _
  · exact le_of_lt h3
  · exact le_refl _

theorem d_sum_L_nonneg (p : CEModel) (hg : 1/2 ≤ p.gamma) (h1 : 0 < p.d1)
    (h2 : 0 < p.d2) : 0 ≤ CEModel.d_sum_L p := by
  unfold CEModel.d_sum_L CEModel.d1L CEModel.d2L
  have hg0 : (0:ℚ) ≤ p.gamma := by linarith
  have ha : (0:ℚ) ≤ min (p.gamma * p.d1) (999/1000) :=
    le_min (mul_nonneg hg0 (le_of_lt h1)) (by norm_num)
  have hb : (0:ℚ) ≤ min (p.gamma * p.d2) (999/1000) :=
    le_min (mul_nonneg hg0 (le_of_lt h2)) (by norm_num)
  linarith

theorem profit_SI_nonneg (p : CEModel) (h1 : 0 < p.d1) (h2 : 0 < p.d2) :
    0 ≤ CEModel.profit_SI p := by
  unfold CEModel.profit_SI CEModel.d_sum_S
  split_ifs with h
  · exact le_refl 0
  · exact div_nonneg (sq_nonneg _) (by nlinarith)

theorem profit_LI_A_nonneg (p : CEModel) (hds : 0 ≤ CEModel.d_sum_L p) :
    0 ≤ CEModel.profit_LI_A p := by
  unfold CEModel.profit_LI_A
  split_ifs with h
  · exact optimize_LI_numerical_A_nonneg p
  · exact div_nonneg (sq_nonneg _) (by nlinarith)

theorem profit_LI_B_nonneg (p : CEModel) (hds : 0 ≤ CEModel.d_sum_L p) :
    0 ≤ CEModel.profit_LI_B p := by
  unfold CEModel.profit_LI_B
  split_ifs with h
  · exact le_max_right _ _
  · exact div_nonneg (sq_nonneg _) (by nlinarith)

theorem profit_SI_le_profit_SM (p : CEModel) :
    CEModel.profit_SI p ≤ CEModel.profit_SM p := by
  unfold CEModel.profit_SM
  exact le_max_left _ _

theorem profit_LM_A_nonneg (p : CEModel) : 0 ≤ CEModel.profit_LM_A p :=
  le_trans (lmGrid_A_nonneg p) (le_max_left _ _)

theorem profit_LM_B_nonneg (p : CEModel) : 0 ≤ CEModel.profit_LM_B p :=
  le_max_right _ _

theorem C3_cex_d_sum_L :
    CEModel.d_sum_L ⟨3/5, 2/5, -1/125, 6/25, 0⟩ = -1/125 := by
  norm_num [CEModel.d_sum_L, CEModel.d1L, CEModel.d2L, min_def]

theorem C3_cex_admissible_profit_bound (i j : ℕ) (hi : i < 25) (hj : j < 25)
    (hle : CEModel.lat 25 j ≤ CEModel.lat 25 i)
    (hrn : 0 ≤ CEModel.LI_rn ⟨3/5, 2/5, -1/125, 6/25, 0⟩ 25 i j)
    (hru : 0 ≤ CEModel.LI_ru ⟨3/5, 2/5, -1/125, 6/25, 0⟩ 25 i j) :
    CEModel.LI_profit ⟨3/5, 2/5, -1/125, 6/25, 0⟩ 25 i j ≤ 3/100 := by
  have h24 : ((25:ℕ):ℚ) - 1 = 24 := by norm_num
  simp only [CEModel.LI_profit, CEModel.LI_rn, CEModel.LI_ru, CEModel.lat,
    C3_cex_d_sum_L, h24] at hle hrn hru ⊢
  have hiQ : (i:ℚ) ≤ 24 := by exact_mod_cast Nat.le_of_lt_succ hi
  have hjQ : (j:ℚ) ≤ 24 := by exact_mod_cast Nat.le_of_lt_succ hj
  have hi0 : (0:ℚ) ≤ (i:ℚ) := Nat.cast_nonneg i
  have hj0 : (0:ℚ) ≤ (j:ℚ) := Nat.cast_nonneg j
  have hsum : (1:ℚ) ≤ (i:ℚ)/24 + (j:ℚ)/24 := by linarith
  have hs12 : (1:ℚ)/2 ≤ (i:ℚ)/24 := by linarith
  nlinarith [mul_nonneg (by linarith : (0:ℚ) ≤ (i:ℚ)/24 - 1/2)
      (by linarith : (0:ℚ) ≤ (i:ℚ)/24 - 1/50),
    mul_nonneg (by positivity : (0:ℚ) ≤ (j:ℚ)/24)
      (by linarith : (0:ℚ) ≤ 1 - (j:ℚ)/24),
    mul_nonneg (by positivity : (0:ℚ) ≤ (j:ℚ)/24)
      (by linarith : (0:ℚ) ≤ 1 - (i:ℚ)/24)]

/-! ### The claims -/

/-- Claim C2, counterexample: with the fixed pair `d1 = 0.2 < d2 = 0.5`
(infeasible, `d2 >= d1`), the joint-choice c-gamma sweep still computes a
strategy code at cell `(0, 0)` instead of the infeasibility sentinel. -/
theorem C2_counterexample_joint_choice_not_masked :
    jointChoiceCell (1/5) (1/2) 0 40 0 0 ≠ none := by
  simp [jointChoiceCell]

/-- Claim C2, amended: the `d1`-by-`d2` sweeps (`buildFig1Grid`,
`buildFig2Grid`) emit the sentinel and skip model evaluation exactly on
cells with `d2 >= d1`, but the c-gamma sweeps with a fixed `(d1, d2)` pair
(`buildJointChoiceGrid`, `buildFig3Grid`, `buildFig4Grid`, `buildFig5Grid`)
compute a numeric cell at every point, whatever the fixed pair. -/
theorem C2_amended_feasibility_masking :
    (∀ gamma c k : ℚ, ∀ N i j : ℕ, fig1Axis N j ≤ fig1Axis N i →
      fig1SellCell gamma c k N i j = none ∧
      fig1LeaseCell gamma c k N i j = none) ∧
    (∀ gamma c : ℚ, ∀ N i j : ℕ, fig1Axis N j ≤ fig1Axis N i →
      fig2Cell gamma c N i j = none) ∧
    (∀ d1 d2 k : ℚ, ∀ N i j : ℕ,
      (jointChoiceCell d1 d2 k N i j).isSome = true) ∧
    (∀ d1 d2 : ℚ, ∀ N i j : ℕ, (fig3SwitchCell d1 d2 N i j).isSome = true) ∧
    (∀ d1 d2 : ℚ, ∀ N i j : ℕ, (fig4Cell d1 d2 N i j).isSome = true) ∧
    (∀ k : ℚ, ∀ N i j : ℕ, (fig5Cell k N i j).isSome = true) := by
  refine ⟨?_, ?_, ?_, ?_, ?_, ?_⟩
  · intro gamma c k N i j h
    constructor
    · unfold fig1SellCell
      rw [if_pos h]
    · unfold fig1LeaseCell
      rw [if_pos h]
  · intro gamma c N i j h
    unfold fig2Cell
    rw [if_pos h]
  · intro d1 d2 k N i j
    rfl
  · intro d1 d2 N i j
    unfold fig3SwitchCell
    split_ifs <;> rfl
  · intro d1 d2 N i j
    rfl
  · intro k N i j
    rfl

/-- Claim C3, counterexample: at `d1 = 3/5, d2 = 2/5, gamma = -1/125,
c = 6/25, k = 0` (where `c < C_LI`, so `profit_LI` of the second snapshot
invokes the optimizer), the second snapshot's `_optimize_LI_numerical`
returns at least `27/400` — the profit of lattice point `Ln = 1/4, Lu = 0`,
whose price `ru` is negative — while every lattice point with `Lu <= Ln`,
`rn >= 0` and `ru >= 0` has profit at most `3/100 < 27/400`. So that
optimizer does not skip negative-price points, and such points do
contribute to its result, against the claim. -/
theorem C3_counterexample_negative_price_contributes :
    (27/400 : ℚ) ≤
      CEModel.optimize_LI_numerical_B ⟨3/5, 2/5, -1/125, 6/25, 0⟩ ∧
    (∀ i j : ℕ, i < 25 → j < 25 →
      CEModel.lat 25 j ≤ CEModel.lat 25 i →
      0 ≤ CEModel.LI_rn ⟨3/5, 2/5, -1/125, 6/25, 0⟩ 25 i j →
      0 ≤ CEModel.LI_ru ⟨3/5, 2/5, -1/125, 6/25, 0⟩ 25 i j →
      CEModel.LI_profit ⟨3/5, 2/5, -1/125, 6/25, 0⟩ 25 i j ≤ 3/100) ∧
    (3/100 : ℚ) < 27/400 := by
  refine ⟨?_, fun i j hi hj hle hrn hru =>
    C3_cex_admissible_profit_bound i j hi hj hle hrn hru, by norm_num⟩
  have h60 : CEModel.LI_profit ⟨3/5, 2/5, -1/125, 6/25, 0⟩ 25 6 0 =
      27/400 := by
    norm_num [CEModel.LI_profit, CEModel.LI_rn, CEModel.LI_ru, CEModel.lat,
      C3_cex_d_sum_L]
  rw [optimize_LI_numerical_B_eq, ← h60]
  refine le_trans ?_ (le_max_left _ _)
  refine le_condMaxFold _ _ (x := ((6, 0) : ℕ × ℕ))
    (mem_gridPairs.mpr ⟨by norm_num, by norm_num⟩) ?_ _
  rw [not_lt]
  norm_num [CEModel.lat]

/-- Claim C3, amended: the first snapshot's leasing-integral optimizer
(31 points per axis) considers only lattice points with `Lu <= Ln`, skips
every point with `rn < 0` or `ru < 0` (such points never contribute), and
returns the maximum of `rn*Ln + ru*Lu - 2c*Ln` over the remaining points,
floored at 0; the second snapshot's optimizer (25 points per axis) has no
negative-price skip: it returns the maximum of the same objective over all
lattice points with `Lu <= Ln`, floored at 0, so negative-price points can
supply its result. -/
theorem C3_amended_LI_optimizer_semantics :
    ∀ p : CEModel,
      (0 ≤ CEModel.optimize_LI_numerical_A p ∧
        (∀ i j : ℕ, i < 31 → j < 31 →
          CEModel.lat 31 j ≤ CEModel.lat 31 i →
          0 ≤ CEModel.LI_rn p 31 i j → 0 ≤ CEModel.LI_ru p 31 i j →
          CEModel.LI_profit p 31 i j ≤ CEModel.optimize_LI_numerical_A p) ∧
        (CEModel.optimize_LI_numerical_A p = 0 ∨
          ∃ i j : ℕ, i < 31 ∧ j < 31 ∧
            CEModel.lat 31 j ≤ CEModel.lat 31 i ∧
            0 ≤ CEModel.LI_rn p 31 i j ∧ 0 ≤ CEModel.LI_ru p 31 i j ∧
            CEModel.optimize_LI_numerical_A p =
              CEModel.LI_profit p 31 i j)) ∧
      (0 ≤ CEModel.optimize_LI_numerical_B p ∧
        (∀ i j : ℕ, i < 25 → j < 25 →
          CEModel.lat 25 j ≤ CEModel.lat 25 i →
          CEModel.LI_profit p 25 i j ≤ CEModel.optimize_LI_numerical_B p) ∧
        (CEModel.optimize_LI_numerical_B p = 0 ∨
          ∃ i j : ℕ, i < 25 ∧ j < 25 ∧
            CEModel.lat 25 j ≤ CEModel.lat 25 i ∧
            CEModel.optimize_LI_numerical_B p =
              CEModel.LI_profit p 25 i j)) := by
  intro p
  constructor
  · refine ⟨optimize_LI_numerical_A_nonneg p, ?_, ?_⟩
    · intro i j hi hj hle hrn hru
      rw [optimize_LI_numerical_A_eq]
      refine le_condMaxFold _ _ (x := ((i, j) : ℕ × ℕ))
        (mem_gridPairs.mpr ⟨hi, hj⟩) ⟨not_lt.mpr hle, ?_⟩ 0
      rw [not_or]
      exact ⟨not_lt.mpr hrn, not_lt.mpr hru⟩
    · rcases condMaxFold_attained
        (fun q : ℕ × ℕ => ¬ CEModel.lat 31 q.1 < CEModel.lat 31 q.2 ∧
          ¬ (CEModel.LI_rn p 31 q.1 q.2 < 0 ∨
            CEModel.LI_ru p 31 q.1 q.2 < 0))
        (fun q => CEModel.LI_profit p 31 q.1 q.2) (gridPairs 31 31) 0 with
        h | ⟨q, hq, hP, hval⟩
      · left
        rw [optimize_LI_numerical_A_eq]
        exact h
      · right
        obtain ⟨hq1, hq2⟩ := mem_gridPairs.mp hq
        obtain ⟨hP1, hP2⟩ := hP
        rw [not_or] at hP2
        exact ⟨q.1, q.2, hq1, hq2, not_lt.mp hP1, not_lt.mp hP2.1,
          not_lt.mp hP2.2, by rw [optimize_LI_numerical_A_eq]; exact hval⟩
  · refine ⟨?_, ?_, ?_⟩
    · rw [optimize_LI_numerical_B_eq]
      exact le_max_right _ _
    · intro i j hi hj hle
      rw [optimize_LI_numerical_B_eq]
      refine le_trans ?_ (le_max_left _ _)
      refine le_condMaxFold _ _ (x := ((i, j) : ℕ × ℕ))
        (mem_gridPairs.mpr ⟨hi, hj⟩) ?_ _
      exact not_lt.mpr hle
    · rcases condMaxFold_attained
        (fun q : ℕ × ℕ => ¬ CEModel.lat 25 q.1 < CEModel.lat 25 q.2)
        (fun q => CEModel.LI_profit p 25 q.1 q.2) (gridPairs 25 25)
        (-(10 ^ 9 : ℚ)) with h | ⟨q, hq, hP, hval⟩
      · left
        rw [optimize_LI_numerical_B_eq, h]
        exact max_eq_right (by norm_num)
      · obtain ⟨hq1, hq2⟩ := mem_gridPairs.mp hq
        rcases le_or_lt (CEModel.LI_profit p 25 q.1 q.2) 0 with h0 | h0
        · left
          rw [optimize_LI_numerical_B_eq, hval]
          exact max_eq_right h0
        · right
          exact ⟨q.1, q.2, hq1, hq2, not_lt.mp hP,
            by rw [optimize_LI_numerical_B_eq, hval]
               exact max_eq_left (le_of_lt h0)⟩

/-- Claim C4: on the documented parameter domain every strategy profit is
nonnegative, in both snapshots. -/
theorem C4_profit_nonneg :
    ∀ p : CEModel,
      0 < p.d1 → p.d1 < 1 → 0 < p.d2 → p.d2 < 1 → p.d2 < p.d1 →
      1/2 ≤ p.gamma → p.gamma ≤ 3/2 → 0 < p.c → p.c < 7/20 →
      0 ≤ p.k → p.k ≤ 1/20 →
      0 ≤ CEModel.profit_SI p ∧ 0 ≤ CEModel.profit_LI_A p ∧
      0 ≤ CEModel.profit_LI_B p ∧ 0 ≤ CEModel.profit_SM p ∧
      0 ≤ CEModel.profit_LM_A p ∧ 0 ≤ CEModel.profit_LM_B p := by
  intro p h1 h2 h3 h4 h5 h6 h7 h8 h9 h10 h11
  have hds := d_sum_L_nonneg p h6 h1 h3
  have hSI := profit_SI_nonneg p h1 h3
  exact ⟨hSI, profit_LI_A_nonneg p hds, profit_LI_B_nonneg p hds,
    le_trans hSI (profit_SI_le_profit_SM p), profit_LM_A_nonneg p,
    profit_LM_B_nonneg p⟩

/-- Witness for C4 at `d1 = 1/2, d2 = 1/5, gamma = 1, c = 3/20, k = 0`. -/
theorem C4_profit_nonneg_witness :
    ((0:ℚ) < 1/2 ∧ (1/2:ℚ) < 1 ∧ (0:ℚ) < 1/5 ∧ (1/5:ℚ) < 1 ∧
      (1/5:ℚ) < 1/2 ∧ (1/2:ℚ) ≤ 1 ∧ (1:ℚ) ≤ 3/2 ∧ (0:ℚ) < 3/20 ∧
      (3/20:ℚ) < 7/20 ∧ (0:ℚ) ≤ 0 ∧ (0:ℚ) ≤ 1/20) ∧
    (0 ≤ CEModel.profit_SI ⟨1/2, 1/5, 1, 3/20, 0⟩ ∧
      0 ≤ CEModel.profit_LI_A ⟨1/2, 1/5, 1, 3/20, 0⟩ ∧
      0 ≤ CEModel.profit_LI_B ⟨1/2, 1/5, 1, 3/20, 0⟩ ∧
      0 ≤ CEModel.profit_SM ⟨1/2, 1/5, 1, 3/20, 0⟩ ∧
      0 ≤ CEModel.profit_LM_A ⟨1/2, 1/5, 1, 3/20, 0⟩ ∧
      0 ≤ CEModel.profit_LM_B ⟨1/2, 1/5, 1, 3/20, 0⟩) := by
  constructor
  · norm_num
  · exact C4_profit_nonneg ⟨1/2, 1/5, 1, 3/20, 0⟩ (by norm_num) (by norm_num)
      (by norm_num) (by norm_num) (by norm_num) (by norm_num) (by norm_num)
      (by norm_num) (by norm_num) (by norm_num) (by norm_num)

/-- Claim C5: the selling-modular profit is never below its integral
fallback, for every parameter tuple. -/
theorem C5_SM_dominates_SI :
    ∀ p : CEModel, CEModel.profit_SI p ≤ CEModel.profit_SM p :=
  profit_SI_le_profit_SM

/-- Claim C6: the leasing-modular profit is never below the leasing-integral
profit, in both snapshots; in the second snapshot it is exactly the maximum
of the 3D grid-search result, `profit_LI`, and 0. -/
theorem C6_LM_dominates_LI :
    ∀ p : CEModel,
      CEModel.profit_LI_A p ≤ CEModel.profit_LM_A p ∧
      CEModel.profit_LI_B p ≤ CEModel.profit_LM_B p ∧
      CEModel.profit_LM_B p =
        max (max (CEModel.lmGrid_B p) (CEModel.profit_LI_B p)) 0 :=
  fun _ => ⟨le_max_right _ _, le_trans (le_max_right _ _) (le_max_left _ _),
    rfl⟩

/-- Claim C7: the Fig 3 switch code is 1 when the integral pair prefers
lease and the modular pair prefers sell, 2 when both prefer lease, 0 when
both prefer sell, and 0 on the remaining disagreement. -/
theorem C7_fig3_switch_code :
    ∀ d1 d2 : ℚ, ∀ N i j : ℕ,
      (CEModel.profit_SI (fig3Model d1 d2 N i j) <
          CEModel.profit_LI_B (fig3Model d1 d2 N i j) →
        ¬ CEModel.profit_SM (fig3Model d1 d2 N i j) <
            CEModel.profit_LM_B (fig3Model d1 d2 N i j) →
        fig3SwitchCell d1 d2 N i j = some 1) ∧
      (CEModel.profit_SI (fig3Model d1 d2 N i j) <
          CEModel.profit_LI_B (fig3Model d1 d2 N i j) →
        CEModel.profit_SM (fig3Model d1 d2 N i j) <
          CEModel.profit_LM_B (fig3Model d1 d2 N i j) →
        fig3SwitchCell d1 d2 N i j = some 2) ∧
      (¬ CEModel.profit_SI (fig3Model d1 d2 N i j) <
          CEModel.profit_LI_B (fig3Model d1 d2 N i j) →
        ¬ CEModel.profit_SM (fig3Model d1 d2 N i j) <
            CEModel.profit_LM_B (fig3Model d1 d2 N i j) →
        fig3SwitchCell d1 d2 N i j = some 0) ∧
      (¬ CEModel.profit_SI (fig3Model d1 d2 N i j) <
          CEModel.profit_LI_B (fig3Model d1 d2 N i j) →
        CEModel.profit_SM (fig3Model d1 d2 N i j) <
          CEModel.profit_LM_B (fig3Model d1 d2 N i j) →
        fig3SwitchCell d1 d2 N i j = some 0) := by
  intro d1 d2 N i j
  refine ⟨fun hI hM => ?_, fun hI hM => ?_, fun hI hM => ?_, fun hI hM => ?_⟩ <;>
    simp [fig3SwitchCell, fig3prefI, fig3prefM, hI, hM]

/-- Claim C8: every 4-way strategy-code cell is `indexOf(max)` over the
profit list `[SI, LI, SM, LM]`: the code is below 4, the list holds the
maximum at the code, every earlier entry is strictly below the maximum
(leftmost tie-break), and the joint-choice, Fig 4 and Fig 5 cells all carry
exactly that code of their four profits. -/
theorem C8_strategy_code_leftmost_argmax :
    (∀ a b c d : ℚ, jointCode a b c d < 4 ∧
      [a, b, c, d].getD (jointCode a b c d) 0 = max4 a b c d ∧
      ∀ n, n < jointCode a b c d → [a, b, c, d].getD n 0 < max4 a b c d) ∧
    (∀ d1 d2 k : ℚ, ∀ N i j : ℕ,
      jointChoiceCell d1 d2 k N i j = some (jointCode
        (CEModel.profit_SI (jointChoiceModel d1 d2 k N i j))
        (CEModel.profit_LI_A (jointChoiceModel d1 d2 k N i j))
        (CEModel.profit_SM (jointChoiceModel d1 d2 k N i j))
        (CEModel.profit_LM_A (jointChoiceModel d1 d2 k N i j)))) ∧
    (∀ d1 d2 : ℚ, ∀ N i j : ℕ,
      fig4Cell d1 d2 N i j = some (jointCode
        (CEModel.profit_SI (fig4Model d1 d2 N i j))
        (CEModel.profit_LI_B (fig4Model d1 d2 N i j))
        (CEModel.profit_SM (fig4Model d1 d2 N i j))
        (CEModel.profit_LM_B (fig4Model d1 d2 N i j)))) ∧
    (∀ k : ℚ, ∀ N i j : ℕ,
      fig5Cell k N i j = some (jointCode
        (CEModel.profit_SI (fig5Model k N i j))
        (CEModel.profit_LI_B (fig5Model k N i j))
        (CEModel.profit_SM (fig5Model k N i j))
        (CEModel.profit_LM_B (fig5Model k N i j)))) :=
  ⟨jointCode_spec, fun _ _ _ _ _ _ => rfl, fun _ _ _ _ _ => rfl,
    fun _ _ _ _ => rfl⟩

/-- Claim C9: for every `(gamma, c0)` the Fig 6 search returns a pair with
`d2 < d1`, both inside the coarse lattice `[0.1, 0.9]`, whose best-of-four
profit (at total cost `c0 + 0.08*d1^2 + 0.16*d2^2`) dominates the
best-of-four profit of every feasible lattice pair, and is attained. -/
theorem C9_fig6_optimal_pair :
    ∀ gamma c0 : ℚ, ∃ pi a b s,
      fig6Search gamma c0 = (pi, (a, b), s) ∧
      b < a ∧ 1/10 ≤ a ∧ a ≤ 9/10 ∧ 1/10 ≤ b ∧ b ≤ 9/10 ∧
      a ∈ fig6_grid ∧ b ∈ fig6_grid ∧
      pi = fig6Value gamma c0 a b ∧ s = fig6Strat gamma c0 a b ∧
      (∀ x ∈ fig6_grid, ∀ y ∈ fig6_grid, y < x → ∀ t : Strat,
        stratProfit (CEModel.profit_SI (fig6Model gamma c0 x y))
          (CEModel.profit_LI_B (fig6Model gamma c0 x y))
          (CEModel.profit_SM (fig6Model gamma c0 x y))
          (CEModel.profit_LM_B (fig6Model gamma c0 x y)) t ≤ pi) := by
  intro gamma c0
  have heq := fig6Search_eq gamma c0
  have hle_val : ∀ x y : ℚ, ∀ t : Strat,
      stratProfit (CEModel.profit_SI (fig6Model gamma c0 x y))
        (CEModel.profit_LI_B (fig6Model gamma c0 x y))
        (CEModel.profit_SM (fig6Model gamma c0 x y))
        (CEModel.profit_LM_B (fig6Model gamma c0 x y)) t ≤
        fig6Value gamma c0 x y :=
    fun x y t => stratProfit_le_selectStrat
      (CEModel.profit_SI (fig6Model gamma c0 x y))
      (CEModel.profit_LI_B (fig6Model gamma c0 x y))
      (CEModel.profit_SM (fig6Model gamma c0 x y))
      (CEModel.profit_LM_B (fig6Model gamma c0 x y)) t
  have hvalnn : ∀ x y : ℚ, 0 ≤ fig6Value gamma c0 x y :=
    fun x y => le_trans (profit_LM_B_nonneg _) (hle_val x y Strat.LM)
  have hub : ∀ x y : ℚ, x ∈ fig6_grid → y ∈ fig6_grid → ¬ x ≤ y →
      fig6Value gamma c0 x y ≤ (fig6Search gamma c0).1 := by
    intro x y hx hy hP
    have h := le_argmaxFold_fst (fun q : ℚ × ℚ => ¬ q.1 ≤ q.2)
      (fun q => fig6Value gamma c0 q.1 q.2)
      (fun q => ((q.1, q.2), fig6Strat gamma c0 q.1 q.2))
      (x := ((x, y) : ℚ × ℚ))
      (mem_fig6_pairList.mpr ⟨hx, hy⟩) hP
      (-(10 ^ 9 : ℚ), (1/10, 1/10), Strat.SI)
    rw [heq]
    exact h
  have hpos : (0:ℚ) ≤ (fig6Search gamma c0).1 :=
    le_trans (hvalnn (9/10) (1/10))
      (hub (9/10) (1/10) high_mem_fig6_grid low_mem_fig6_grid (by norm_num))
  rcases argmaxFold_attained (fun q : ℚ × ℚ => ¬ q.1 ≤ q.2)
      (fun q => fig6Value gamma c0 q.1 q.2)
      (fun q => ((q.1, q.2), fig6Strat gamma c0 q.1 q.2))
      (fig6_grid.flatMap fun a => fig6_grid.map fun b => (a, b))
      (-(10 ^ 9 : ℚ), (1/10, 1/10), Strat.SI) with h | ⟨q, hq, hP, hval⟩
  · exfalso
    rw [← heq] at h
    rw [h] at hpos
    norm_num at hpos
  · have hsearch : fig6Search gamma c0 =
        (fig6Value gamma c0 q.1 q.2, (q.1, q.2),
          fig6Strat gamma c0 q.1 q.2) := by
      rw [heq, hval]
    obtain ⟨hqa, hqb⟩ := mem_fig6_pairList.mp hq
    obtain ⟨ha1, ha2⟩ := fig6_grid_bounds q.1 hqa
    obtain ⟨hb1, hb2⟩ := fig6_grid_bounds q.2 hqb
    refine ⟨fig6Value gamma c0 q.1 q.2, q.1, q.2, fig6Strat gamma c0 q.1 q.2,
      hsearch, not_le.mp hP, ha1, ha2, hb1, hb2, hqa, hqb, rfl, rfl, ?_⟩
    intro x hx y hy hyx t
    have h1 : fig6Value gamma c0 x y ≤ (fig6Search gamma c0).1 :=
      hub x y hx hy (not_le.mpr hyx)
    rw [hsearch] at h1
    exact le_trans (hle_val x y t) h1

/-- Claim C10: at each Fig 6 candidate pair the `reduce` keeps its second
argument under strict-greater comparison, so the reported label attains the
maximal profit and, among equal-profit strategies, is the one occurring
latest in the order `SI, LI, SM, LM` — the last-match tie-break. -/
theorem C10_fig6_last_match_tie_break :
    ∀ a b c d : ℚ,
      (∀ s : Strat, stratProfit a b c d s ≤
        stratProfit a b c d (selectStrat a b c d)) ∧
      (∀ s : Strat, stratProfit a b c d s =
          stratProfit a b c d (selectStrat a b c d) →
        stratIdx s ≤ stratIdx (selectStrat a b c d)) ∧
      (∀ gamma c0 x y : ℚ, fig6Strat gamma c0 x y =
        selectStrat (CEModel.profit_SI (fig6Model gamma c0 x y))
          (CEModel.profit_LI_B (fig6Model gamma c0 x y))
          (CEModel.profit_SM (fig6Model gamma c0 x y))
          (CEModel.profit_LM_B (fig6Model gamma c0 x y))) :=
  fun a b c d => ⟨stratProfit_le_selectStrat a b c d,
    fun s h => selectStrat_last a b c d s h, fun _ _ _ _ => rfl⟩
